import Mathlib

/-!
Verification development for the HTXMM market-making engine.

Shallow embedding of the Python sources into Lean 4:
* `src/core/as2008_strategy.py` — quote computation and rebalancing;
* `src/order/order_manager.py` — order reconciliation (`update_orders`);
* `src/risk/risk_manager.py` — the pre-trade risk gate (`check_risk`);
* `src/market/market_data.py` — snapshot readers and the feed backoff loop;
* `src/core/market_maker.py` — the supervisor's exception dispatch.

Numbers are embedded as `ℚ`; fallible Python code is embedded as `Except`
computations over an explicit error type, with the surrounding
`try/except` blocks embedded as handlers over the `Except` result.
-/

namespace HTXMM

/-- Python exception kinds raised by the embedded code paths. -/
inductive PyErr where
  | keyError
  | typeError
  | zeroDivisionError
  | indexError
  | nameError
  deriving DecidableEq

/-- An order-book snapshot as consumed by the strategy: rows of
(price, size) for bids and for asks. -/
structure Orderbook where
  bids : List (ℚ × ℚ)
  asks : List (ℚ × ℚ)
  deriving DecidableEq

/-- The strategy parameters of `AS2008Strategy.__init__`
(`as2008_strategy.py` lines 20–47).  Every field is read either from the
environment via `float(os.getenv(...))` or from the config dict, so at
runtime each one is a Python `float`; they are embedded as rationals. -/
structure ASParams where
  inventoryTarget : ℚ
  inventoryLimit : ℚ
  orderSize : ℚ
  maxOrderSize : ℚ
  maxSpreadRatio : ℚ
  minProfitRatio : ℚ
  rebalanceThreshold : ℚ
  kappa : ℚ
  alpha : ℚ
  gamma : ℚ
  sigma : ℚ
  delta : ℚ
  deriving DecidableEq

/-- An order dict as built by the strategy: `type`, `side`, optional
`price` (`None` for market orders) and `amount`. -/
structure PyOrder where
  otype : String
  side : String
  price : Option ℚ
  amount : ℚ
  deriving DecidableEq

/-- CPython `round(x, ndigits)` where the `ndigits` argument is a `float`:
`float` does not implement `__index__`, so the call raises `TypeError`
unconditionally, whatever the numeric values are.  In the source the
`ndigits` arguments are `self.max_spread_ratio` and `self.max_order_size`,
both produced by `float(os.getenv(...))`, hence Python floats. -/
def pyRoundFloatNdigits (_x _ndigits : ℚ) : Except PyErr ℚ :=
  .error .typeError

/-- Python `int(q)` on a numeric value: truncation toward zero. -/
def pyTrunc (q : ℚ) : ℤ :=
  if 0 ≤ q then ⌊q⌋ else -⌊-q⌋

/-! ### Quote-price pipeline (`calculate_optimal_quotes`, lines 64–91)

The arithmetic part of `calculate_optimal_quotes`, before order
construction, split into one definition per intermediate value of the
source. -/

/-- `self.mid_price = (best_bid + best_ask) / 2` (line 67). -/
def quoteMid (bestBid bestAsk : ℚ) : ℚ := (bestBid + bestAsk) / 2

/-- `spread = self.gamma * self.sigma**2 + 2 * self.delta` (line 77). -/
def baseSpread (p : ASParams) : ℚ := p.gamma * (p.sigma * p.sigma) + 2 * p.delta

/-- `inventory_adjustment + risk_adjustment` (lines 71 and 74):
`self.kappa * current_position + self.alpha * self.sigma**2 * current_position`. -/
def totalAdjustment (p : ASParams) (pos : ℚ) : ℚ :=
  p.kappa * pos + p.alpha * (p.sigma * p.sigma) * pos

/-- `bid_price` before clamping (line 80). -/
def bidRaw (p : ASParams) (bestBid bestAsk pos : ℚ) : ℚ :=
  quoteMid bestBid bestAsk - baseSpread p / 2 - totalAdjustment p pos

/-- `ask_price` before clamping (line 81). -/
def askRaw (p : ASParams) (bestBid bestAsk pos : ℚ) : ℚ :=
  quoteMid bestBid bestAsk + baseSpread p / 2 - totalAdjustment p pos

/-- `bid_price = max(bid_price, best_bid * (1 - self.max_spread_ratio))` (line 84). -/
def bidClamped (p : ASParams) (bestBid bestAsk pos : ℚ) : ℚ :=
  max (bidRaw p bestBid bestAsk pos) (bestBid * (1 - p.maxSpreadRatio))

/-- `ask_price = min(ask_price, best_ask * (1 + self.max_spread_ratio))` (line 85). -/
def askClamped (p : ASParams) (bestBid bestAsk pos : ℚ) : ℚ :=
  min (askRaw p bestBid bestAsk pos) (bestAsk * (1 + p.maxSpreadRatio))

/-- The recentering guard `(ask_price - bid_price) / bid_price <
self.min_profit_ratio` (line 88), evaluated on the clamped pair. -/
def needRecenter (p : ASParams) (bestBid bestAsk pos : ℚ) : Bool :=
  decide ((askClamped p bestBid bestAsk pos - bidClamped p bestBid bestAsk pos)
      / bidClamped p bestBid bestAsk pos < p.minProfitRatio)

/-- Final bid price after the optional recentering step (lines 88–91):
on recentering, `spread = self.min_profit_ratio * bid_price` (the clamped
bid) and `bid_price = self.mid_price - spread/2`. -/
def bidFinal (p : ASParams) (bestBid bestAsk pos : ℚ) : ℚ :=
  if needRecenter p bestBid bestAsk pos then
    quoteMid bestBid bestAsk - p.minProfitRatio * bidClamped p bestBid bestAsk pos / 2
  else bidClamped p bestBid bestAsk pos

/-- Final ask price after the optional recentering step (lines 88–91). -/
def askFinal (p : ASParams) (bestBid bestAsk pos : ℚ) : ℚ :=
  if needRecenter p bestBid bestAsk pos then
    quoteMid bestBid bestAsk + p.minProfitRatio * bidClamped p bestBid bestAsk pos / 2
  else askClamped p bestBid bestAsk pos

/-- The body of the `try` block of `calculate_optimal_quotes`
(`as2008_strategy.py` lines 60–112).  `orderbook['bids'][0][0]` on an
empty list raises `IndexError`; the division in the recentering guard
raises `ZeroDivisionError` when the clamped bid is zero; the four `round`
calls of the order-construction step (lines 101–108) pass the float
parameters `max_spread_ratio` / `max_order_size` as `ndigits`. -/
def calculateOptimalQuotesBody (p : ASParams) (ob : Orderbook) (pos : ℚ) :
    Except PyErr (List PyOrder) :=
  match ob.bids, ob.asks with
  | [], _ => .error .indexError
  | _ :: _, [] => .error .indexError
  | brow :: _, arow :: _ =>
    let bb := brow.1
    let ba := arow.1
    if bidClamped p bb ba pos = 0 then .error .zeroDivisionError
    else
      match pyRoundFloatNdigits (bidFinal p bb ba pos) p.maxSpreadRatio with
      | .error e => .error e
      | .ok bidPrice =>
        match pyRoundFloatNdigits p.orderSize p.maxOrderSize with
        | .error e => .error e
        | .ok bidAmount =>
          match pyRoundFloatNdigits (askFinal p bb ba pos) p.maxSpreadRatio with
          | .error e => .error e
          | .ok askPrice =>
            match pyRoundFloatNdigits p.orderSize p.maxOrderSize with
            | .error e => .error e
            | .ok askAmount =>
              .ok [⟨"limit", "buy", some bidPrice, bidAmount⟩,
                   ⟨"limit", "sell", some askPrice, askAmount⟩]

/-- `AS2008Strategy.calculate_optimal_quotes`: the `try` body with its
`except Exception` handler, which logs and returns `[]` (lines 114–116). -/
def calculate_optimal_quotes (p : ASParams) (ob : Orderbook) (pos : ℚ) :
    List PyOrder :=
  match calculateOptimalQuotesBody p ob pos with
  | .ok orders => orders
  | .error _ => []

/-! ### Rebalancing (`calculate_rebalance_orders`, lines 160–194) -/

/-- `side = 'buy' if position_diff > 0 else 'sell'` (line 175). -/
def rebalanceSide (p : ASParams) (pos : ℚ) : String :=
  if p.inventoryTarget - pos > 0 then "buy" else "sell"

/-- `num_orders = int(abs(position_diff) / self.order_size)` (line 178),
with `range(num_orders)` empty for a non-positive count. -/
def rebalanceCount (p : ASParams) (pos : ℚ) : ℕ :=
  (pyTrunc (|p.inventoryTarget - pos| / p.orderSize)).toNat

/-- The order-construction loop of `calculate_rebalance_orders`
(lines 181–188): each iteration evaluates
`round(self.order_size, self.max_order_size)` with the float
`max_order_size` as `ndigits`. -/
def buildRebalanceOrders (p : ASParams) (sideArg : String) :
    ℕ → Except PyErr (List PyOrder)
  | 0 => .ok []
  | n + 1 =>
    match pyRoundFloatNdigits p.orderSize p.maxOrderSize with
    | .error e => .error e
    | .ok amt =>
      match buildRebalanceOrders p sideArg n with
      | .error e => .error e
      | .ok rest => .ok (⟨"limit", sideArg, none, amt⟩ :: rest)

/-- The body of the `try` block of `calculate_rebalance_orders`
(lines 170–190). `abs(position_diff) / self.order_size` raises
`ZeroDivisionError` when `order_size` is zero. -/
def calculateRebalanceOrdersBody (p : ASParams) (pos : ℚ) :
    Except PyErr (List PyOrder) :=
  if p.orderSize = 0 then .error .zeroDivisionError
  else buildRebalanceOrders p (rebalanceSide p pos) (rebalanceCount p pos)

/-- `AS2008Strategy.calculate_rebalance_orders`: the `try` body with its
`except Exception` handler returning `[]` (lines 192–194). -/
def calculate_rebalance_orders (p : ASParams) (pos : ℚ) : List PyOrder :=
  match calculateRebalanceOrdersBody p pos with
  | .ok orders => orders
  | .error _ => []

/-! ### Order reconciliation (`order_manager.py`, `update_orders` lines 142–172) -/

/-- An order identified by the matching key (side, price, size) of the
reconciliation claim; both current open orders and target orders are
compared under this key. -/
structure LiveOrder where
  side : String
  price : ℚ
  size : ℚ
  deriving DecidableEq

/-- Calls issued against the exchange gateway by `update_orders`. -/
inductive GatewayCall where
  | cancelAllOrders
  | createOrder (o : LiveOrder)
  deriving DecidableEq

/-- `OrderManager.update_orders`: fetch current open orders; if any exist,
issue a single `cancel_all_orders`; then issue one `create_order` per
target order, in order (lines 152–169).  No matching of current against
target orders takes place. -/
def updateOrdersCalls (current target : List LiveOrder) : List GatewayCall :=
  (if current.isEmpty then [] else [GatewayCall.cancelAllOrders])
    ++ target.map (fun o => GatewayCall.createOrder o)

/-- Orders cancelled by a gateway-call trace, given the current open
orders: a `cancel_all_orders` call cancels every current order. -/
def ordersCancelled (calls : List GatewayCall) (current : List LiveOrder) :
    List LiveOrder :=
  if GatewayCall.cancelAllOrders ∈ calls then current else []

/-- Orders placed by a gateway-call trace. -/
def ordersPlaced (calls : List GatewayCall) : List LiveOrder :=
  calls.filterMap (fun c =>
    match c with
    | GatewayCall.createOrder o => some o
    | _ => none)

/-- Modelled from the spec: the operation count of the minimal-diff
reconciliation policy, `|C \ T| + |T \ C|` under equality matching on
(side, price, size).  Stated for comparison with `updateOrdersCalls`. -/
def specMinimalDiffCount (current target : List LiveOrder) : ℕ :=
  (current.filter (fun o => !(target.contains o))).length
    + (target.filter (fun o => !(current.contains o))).length

/-! ### Risk gate (`risk_manager.py`, `check_risk` lines 20–63)

The config dict and the order dicts are embedded with `Option` fields:
`none` models a missing key, and the subscript lookups of the source
raise `KeyError` on it. -/

/-- The config keys read by `check_risk` via `self.config[...]`. -/
structure RiskConfig where
  maxOrdersKey : Option ℕ
  orderSizeKey : Option ℚ
  minSpreadKey : Option ℚ
  maxSpreadKey : Option ℚ
  deriving DecidableEq

/-- An order dict as received by `check_risk`; any key may be missing. -/
structure RawOrder where
  side : Option String
  price : Option ℚ
  amount : Option ℚ
  deriving DecidableEq

/-- A Python dict subscript `d[k]`: `KeyError` when the key is absent. -/
def pyGet {α : Type} (x : Option α) : Except PyErr α :=
  match x with
  | some v => .ok v
  | none => .error .keyError

/-- Maximum of a nonempty list of rationals, as Python `max(...)`;
the empty case is unreachable at its use site (guarded by `if bids`). -/
def listMax : List ℚ → ℚ
  | [] => 0
  | x :: xs => xs.foldl max x

/-- Minimum of a nonempty list of rationals, as Python `min(...)`. -/
def listMin : List ℚ → ℚ
  | [] => 0
  | x :: xs => xs.foldl min x

/-- The order-size loop of `check_risk` (lines 37–40): for each order,
`if order['amount'] > self.config['order_size']: return False`. -/
def sizeCheckLoop (cfg : RiskConfig) : List RawOrder → Except PyErr Bool
  | [] => .ok true
  | o :: rest =>
    match pyGet o.amount with
    | .error e => .error e
    | .ok a =>
      match pyGet cfg.orderSizeKey with
      | .error e => .error e
      | .ok m => if a > m then .ok false else sizeCheckLoop cfg rest

/-- The spread section of `check_risk` (lines 43–57), given each order
paired with its side (the two comprehensions evaluate `o['side']` for
every order).  `best_bid` of zero makes the division raise
`ZeroDivisionError`. -/
def spreadCheck (cfg : RiskConfig) (pairs : List (RawOrder × String)) :
    Except PyErr Bool :=
  let bids := pairs.filter (fun q => q.2 == "buy")
  let asks := pairs.filter (fun q => q.2 == "sell")
  if bids.isEmpty || asks.isEmpty then .ok true
  else
    match bids.mapM (fun q => pyGet q.1.price) with
    | .error e => .error e
    | .ok bidPrices =>
      match asks.mapM (fun q => pyGet q.1.price) with
      | .error e => .error e
      | .ok askPrices =>
        let bestBid := listMax bidPrices
        let bestAsk := listMin askPrices
        if bestBid = 0 then .error .zeroDivisionError
        else
          let spr := (bestAsk - bestBid) / bestBid
          match pyGet cfg.minSpreadKey with
          | .error e => .error e
          | .ok mn =>
            if spr < mn then .ok false
            else
              match pyGet cfg.maxSpreadKey with
              | .error e => .error e
              | .ok mx => if spr > mx then .ok false else .ok true

/-- The body of the `try` block of `RiskManager.check_risk`
(lines 30–59): order-count check, order-size loop, then the spread
section. -/
def checkRiskRaw (cfg : RiskConfig) (orders : List RawOrder) :
    Except PyErr Bool :=
  match pyGet cfg.maxOrdersKey with
  | .error e => .error e
  | .ok mo =>
    if orders.length > mo then .ok false
    else
      match sizeCheckLoop cfg orders with
      | .error e => .error e
      | .ok false => .ok false
      | .ok true =>
        match orders.mapM (fun o => pyGet o.side) with
        | .error e => .error e
        | .ok sides => spreadCheck cfg (orders.zip sides)

/-- `RiskManager.check_risk`: the `try` body with its `except Exception`
handler, which logs and returns `False` (lines 61–63). -/
def check_risk (cfg : RiskConfig) (orders : List RawOrder) : Bool :=
  match checkRiskRaw cfg orders with
  | .ok b => b
  | .error _ => false

/-! ### Market-data snapshot readers (`market_data.py` lines 245–264) -/

/-- A ticker snapshot (opaque payload, embedded by its last price). -/
structure TickerSnap where
  last : ℚ
  deriving DecidableEq

/-- A trade record (price, amount). -/
structure TradeRec where
  price : ℚ
  amount : ℚ
  deriving DecidableEq

/-- The cached state of `MarketData` used by the readers; timestamps in
integral time units, `none` when no update has been recorded yet. -/
structure MarketDataState where
  orderbook : Option Orderbook
  ticker : Option TickerSnap
  trades : List TradeRec
  lastOrderbookUpdate : Option ℤ
  lastTickerUpdate : Option ℤ
  lastTradesUpdate : Option ℤ
  maxDataAge : ℤ
  deriving DecidableEq

/-- `MarketData.get_orderbook` (lines 245–250): `None` when a timestamp
exists and is more than `max_data_age` in the past, else the cached
orderbook (Python: `if self.last_orderbook_update and now - last > max_age`). -/
def get_orderbook (st : MarketDataState) (now : ℤ) : Option Orderbook :=
  match st.lastOrderbookUpdate with
  | some t => if now - t > st.maxDataAge then none else st.orderbook
  | none => st.orderbook

/-- `MarketData.get_ticker` (lines 252–257). -/
def get_ticker (st : MarketDataState) (now : ℤ) : Option TickerSnap :=
  match st.lastTickerUpdate with
  | some t => if now - t > st.maxDataAge then none else st.ticker
  | none => st.ticker

/-- `MarketData.get_trades` (lines 259–264): the stale case returns `[]`. -/
def get_trades (st : MarketDataState) (now : ℤ) : List TradeRec :=
  match st.lastTradesUpdate with
  | some t => if now - t > st.maxDataAge then [] else st.trades
  | none => st.trades

/-! ### Subscription-loop backoff (`market_data.py` lines 150–243) -/

/-- `self.reconnect_delay = 1` (line 55): the backoff floor, seconds. -/
def reconnectDelayFloor : ℕ := 1

/-- `self.max_reconnect_delay = 30` (line 56): the backoff ceiling. -/
def maxReconnectDelay : ℕ := 30

/-- What one iteration of a subscription loop observes. -/
inductive FeedEvent where
  | updateOk
  | invalidPayload
  | failure
  deriving DecidableEq

/-- The effect of one iteration of `watch_orderbook` / `watch_ticker` /
`watch_trades` on `retry_delay`: a successful (validated) update resets
it to `reconnect_delay`; an invalid order-book payload leaves it
unchanged; any exception doubles it, capped at `max_reconnect_delay`
(`retry_delay = min(retry_delay * 2, self.max_reconnect_delay)`). -/
def watchStep (d : ℕ) : FeedEvent → ℕ
  | .updateOk => reconnectDelayFloor
  | .invalidPayload => d
  | .failure => min (d * 2) maxReconnectDelay

/-- The retry delay after `n` consecutive failures starting from delay `d`. -/
def failIter (n : ℕ) (d : ℕ) : ℕ :=
  (fun x => watchStep x .failure)^[n] d

/-! ### Supervisor exception dispatch (`market_maker.py` lines 78–182)

`market_maker.py` imports `ccxt.pro as ccxtpro` and
`from ccxt import AuthenticationError, NetworkError, ExchangeError`;
the bare name `ccxt` is never bound in that module, yet the inner
except clauses of the main loop reference `ccxt.NetworkError` and
`ccxt.ExchangeError`. -/

/-- The names bound at module level in `market_maker.py` (its import
statements, class definition, and the names imported from siblings). -/
def marketMakerModuleNames : List String :=
  ["asyncio", "logging", "Dict", "Optional", "ccxtpro",
   "AuthenticationError", "NetworkError", "ExchangeError",
   "MarketData", "OrderManager", "RiskManager", "setup_logger",
   "AS2008Strategy", "MarketMaker"]

/-- Exception classes relevant to the supervisor. -/
inductive ExcClass where
  | authenticationError
  | networkError
  | exchangeError
  | nameError
  | otherError
  deriving DecidableEq

/-- The bare module name referenced by the inner except clauses. -/
def ccxtNameStr : String := "ccxt"

/-- Evaluating the expression `ccxt.NetworkError` of the first inner
except clause (line 156): resolving the unbound name `ccxt` raises
`NameError`. -/
def resolveCcxtAttr : Except PyErr ExcClass :=
  if marketMakerModuleNames.contains ccxtNameStr then .ok .networkError
  else .error .nameError

/-- Outcome of running the inner except clauses on a raised exception. -/
inductive HandlerOutcome where
  | caughtRetry
  | propagated (e : ExcClass)
  deriving DecidableEq

/-- Dispatch of an exception raised in the main-loop body against the
inner except clauses (lines 156–164).  Matching the first clause
evaluates `ccxt.NetworkError`; an error raised there propagates out of
the inner loop in place of the original exception.  Had the name
resolved, some clause would catch every exception, since the last clause
is `except Exception`. -/
def innerDispatch (_e : ExcClass) : HandlerOutcome :=
  match resolveCcxtAttr with
  | .error .nameError => .propagated .nameError
  | .error _ => .propagated .otherError
  | .ok _ => .caughtRetry

/-- What the outer handlers decide for an exception reaching them. -/
inductive SupervisorOutcome where
  | exitAuth
  | retryConnect
  | exitFatal
  deriving DecidableEq

/-- The outer except clauses of `MarketMaker.start` (lines 166–180):
`AuthenticationError` breaks immediately; `(NetworkError, ExchangeError)`
retries the connection phase (bounded by `max_retries`); any other
`Exception` logs a fatal error and breaks. -/
def outerDispatch (e : ExcClass) : SupervisorOutcome :=
  if e = .authenticationError then .exitAuth
  else if e = .networkError ∨ e = .exchangeError then .retryConnect
  else .exitFatal

/-- Fate of the running main loop when an exception is raised in its body. -/
inductive LoopFate where
  | continues
  | exits (o : SupervisorOutcome)
  deriving DecidableEq

/-- An exception raised inside the running main-loop body first meets the
inner except clauses; whatever those propagate then meets the outer
clauses, ending the inner loop. -/
def loopBodyErrorFate (e : ExcClass) : LoopFate :=
  match innerDispatch e with
  | .caughtRetry => .continues
  | .propagated e' => .exits (outerDispatch e')

/-! ### Concrete inputs used by counterexamples and witnesses -/

/-- The strategy parameters with every value at its documented default:
`ORDER_SIZE=0.1`, `MAX_ORDER_SIZE=1.0`, `MAX_SPREAD_RATIO=0.01`,
`MIN_PROFIT_RATIO=0.0005`, `INVENTORY_TARGET=0`, `INVENTORY_LIMIT=10`,
`REBALANCE_THRESHOLD=0.1`, and `kappa=alpha=gamma=sigma=delta=0.1`. -/
def defaultParams : ASParams :=
  { inventoryTarget := 0
    inventoryLimit := 10
    orderSize := 1/10
    maxOrderSize := 1
    maxSpreadRatio := 1/100
    minProfitRatio := 1/2000
    rebalanceThreshold := 1/10
    kappa := 1/10
    alpha := 1/10
    gamma := 1/10
    sigma := 1/10
    delta := 1/10 }

/-- Parameters with the volatility/depth constants at zero and defaults
elsewhere, reachable through the `config` dict of the constructor. -/
def zeroVolParams : ASParams :=
  { defaultParams with gamma := 0, sigma := 0, delta := 0 }

/-- Parameters with `order_size = 2` and target inventory `0`. -/
def rebalanceExampleParams : ASParams :=
  { defaultParams with orderSize := 2 }

/-- A sample live order used by the reconciliation counterexample. -/
def sampleOrder : LiveOrder :=
  { side := "buy", price := 100, size := 1 }

/-- A risk config dict with every key missing. -/
def emptyRiskConfig : RiskConfig :=
  { maxOrdersKey := none, orderSizeKey := none,
    minSpreadKey := none, maxSpreadKey := none }

/-- A fully populated risk config: `max_orders=10`, `order_size=1`,
`min_spread=0`, `max_spread=1`. -/
def sampleRiskConfig : RiskConfig :=
  { maxOrdersKey := some 10, orderSizeKey := some 1,
    minSpreadKey := some 0, maxSpreadKey := some 1 }

/-- An order whose amount 2 exceeds the configured size bound 1. -/
def bigRawOrder : RawOrder :=
  { side := some "buy", price := some 100, amount := some 2 }

/-- An order whose amount 1/2 is within the configured size bound 1. -/
def smallRawOrder : RawOrder :=
  { side := some "buy", price := some 100, amount := some (1/2) }

/-- A market-data cache whose three snapshots were all stored at time 0. -/
def sampleFeedState : MarketDataState :=
  { orderbook := some { bids := [(100, 1)], asks := [(101, 1)] }
    ticker := some { last := 100 }
    trades := [{ price := 100, amount := 1 }]
    lastOrderbookUpdate := some 0
    lastTickerUpdate := some 0
    lastTradesUpdate := some 0
    maxDataAge := 10 }

/-- The order book used by witnesses: best bid 100, best ask 100.1. -/
def sampleBook : Orderbook :=
  { bids := [(100, 1)], asks := [(1001/10, 1)] }

end HTXMM

namespace HTXMM

/-! ## Helper lemmas shared by several claims -/

/-- Both strategy order builders funnel through `pyRoundFloatNdigits`;
the rebalance loop therefore fails on any positive count. -/
theorem buildRebalanceOrders_pos (p : ASParams) (sideArg : String) (n : ℕ) :
    buildRebalanceOrders p sideArg (n + 1) = .error .typeError := rfl

/-- `calculate_rebalance_orders` returns `[]` for every parameter set and
position: the division raises when `order_size` is zero, the loop body
raises on any positive count, and a non-positive count builds nothing. -/
theorem rebalance_orders_nil (p : ASParams) (pos : ℚ) :
    calculate_rebalance_orders p pos = [] := by
  unfold calculate_rebalance_orders calculateRebalanceOrdersBody
  by_cases h : p.orderSize = 0
  · simp [h]
  · rw [if_neg h]
    cases hn : rebalanceCount p pos with
    | zero => rfl
    | succ n => rfl

/-! ## Claim C1 -/

/-- Claim C1: for every orderbook with non-empty bids and asks and every
position, `AS2008Strategy.calculate_optimal_quotes` returns the empty
list — the order-construction step calls `round` with the float-valued
`max_spread_ratio` / `max_order_size` parameters as the decimal-places
argument, which raises, and the exception handler returns `[]`. -/
theorem c1_optimal_quotes_always_empty (p : ASParams) (ob : Orderbook)
    (pos : ℚ) (hb : ob.bids ≠ []) (ha : ob.asks ≠ []) :
    calculate_optimal_quotes p ob pos = [] := by
  obtain ⟨bids, asks⟩ := ob
  cases bids with
  | nil => exact absurd rfl hb
  | cons brow btl =>
    cases asks with
    | nil => exact absurd rfl ha
    | cons arow atl =>
      unfold calculate_optimal_quotes
      by_cases h : bidClamped p brow.1 arow.1 pos = 0
      · have hbody : calculateOptimalQuotesBody p ⟨brow :: btl, arow :: atl⟩ pos
            = .error .zeroDivisionError := by
          unfold calculateOptimalQuotesBody
          dsimp only
          rw [if_pos h]
        rw [hbody]
      · have hbody : calculateOptimalQuotesBody p ⟨brow :: btl, arow :: atl⟩ pos
            = .error .typeError := by
          unfold calculateOptimalQuotesBody
          dsimp only
          rw [if_neg h]
          rfl
        rw [hbody]

/-- Witness for C1 at the sample book and zero position. -/
theorem c1_witness :
    sampleBook.bids ≠ [] ∧ sampleBook.asks ≠ [] ∧
    calculate_optimal_quotes defaultParams sampleBook 0 = [] :=
  ⟨by simp [sampleBook], by simp [sampleBook],
    c1_optimal_quotes_always_empty defaultParams sampleBook 0
      (by simp [sampleBook]) (by simp [sampleBook])⟩

/-! ## Claim C9 -/

/-- Claim C9: for every position, `calculate_rebalance_orders` returns
the empty list: with at least one order to build, the `round` call with
the float `max_order_size` as decimal places raises and the handler
returns `[]`; with zero orders to build, the loop builds nothing. -/
theorem c9_rebalance_always_empty (p : ASParams) (pos : ℚ) :
    calculate_rebalance_orders p pos = [] :=
  rebalance_orders_nil p pos

/-! ## Claim C4 -/

/-- Counterexample to claim C4: with `order_size = 2` and target
inventory 0, at position 15 the claim demands
`ceil(15 / 2) = 8` sell-side market orders, but the function emits 0. -/
theorem c4_rebalance_count_counterexample :
    calculate_rebalance_orders rebalanceExampleParams 15 = []
    ∧ ⌈|rebalanceExampleParams.inventoryTarget - (15 : ℚ)|
        / rebalanceExampleParams.orderSize⌉ = 8
    ∧ (calculate_rebalance_orders rebalanceExampleParams 15).length ≠ 8 := by
  refine ⟨rebalance_orders_nil _ _, ?_, ?_⟩
  · have h : |rebalanceExampleParams.inventoryTarget - (15 : ℚ)|
        / rebalanceExampleParams.orderSize = 15 / 2 := by
      norm_num [rebalanceExampleParams, defaultParams]
    rw [h, Int.ceil_eq_iff]
    norm_num
  · rw [rebalance_orders_nil _ _]
    simp

/-- Claim C4 as amended: direction is buy iff the target exceeds the
position; the count the construction loop attempts is the floor (Python
`int` truncation) of `|target − position| / order_size`, not the ceiling;
and the function returns `[]` for every position, because each order's
construction raises in `round`. -/
theorem c4_amended_rebalance (p : ASParams) (pos : ℚ)
    (hpos : 0 < p.orderSize) :
    calculate_rebalance_orders p pos = []
    ∧ rebalanceSide p pos
        = (if p.inventoryTarget - pos > 0 then "buy" else "sell")
    ∧ (rebalanceCount p pos : ℤ)
        = ⌊|p.inventoryTarget - pos| / p.orderSize⌋ := by
  refine ⟨rebalance_orders_nil p pos, rfl, ?_⟩
  have hq : 0 ≤ |p.inventoryTarget - pos| / p.orderSize :=
    div_nonneg (abs_nonneg _) hpos.le
  unfold rebalanceCount pyTrunc
  rw [if_pos hq, Int.toNat_of_nonneg (Int.floor_nonneg.mpr hq)]

/-- Witness for the amended C4 at `order_size = 2`, position 15. -/
theorem c4_amended_witness :
    0 < rebalanceExampleParams.orderSize
    ∧ calculate_rebalance_orders rebalanceExampleParams 15 = []
    ∧ (rebalanceCount rebalanceExampleParams 15 : ℤ)
        = ⌊|rebalanceExampleParams.inventoryTarget - (15 : ℚ)|
            / rebalanceExampleParams.orderSize⌋ :=
  have hpos : 0 < rebalanceExampleParams.orderSize := by
    norm_num [rebalanceExampleParams, defaultParams]
  ⟨hpos, (c4_amended_rebalance rebalanceExampleParams 15 hpos).1,
    (c4_amended_rebalance rebalanceExampleParams 15 hpos).2.2⟩

/-! ## Claim C2 -/

/-- Counterexample to claim C2: at the default parameters, order book
best bid 100 / best ask 100.1 (a valid book) and position 100, the
recentering step fires and the recentered pair violates the profit
floor: the resulting relative spread is 198/400101 < 1/2000. -/
theorem c2_profit_floor_counterexample :
    (100 : ℚ) < 1001/10
    ∧ needRecenter defaultParams 100 (1001/10) 100 = true
    ∧ (askFinal defaultParams 100 (1001/10) 100
        - bidFinal defaultParams 100 (1001/10) 100)
        / bidFinal defaultParams 100 (1001/10) 100
      < defaultParams.minProfitRatio := by
  have hbraw : bidRaw defaultParams 100 (1001/10) 100 = 179699/2000 := by
    norm_num [bidRaw, quoteMid, baseSpread, totalAdjustment, defaultParams]
  have hb1 : bidClamped defaultParams 100 (1001/10) 100 = 99 := by
    unfold bidClamped
    rw [hbraw, max_def]
    norm_num [defaultParams]
  have haraw : askRaw defaultParams 100 (1001/10) 100 = 180101/2000 := by
    norm_num [askRaw, quoteMid, baseSpread, totalAdjustment, defaultParams]
  have ha1 : askClamped defaultParams 100 (1001/10) 100 = 180101/2000 := by
    unfold askClamped
    rw [haraw, min_def]
    norm_num [defaultParams]
  have hrec : needRecenter defaultParams 100 (1001/10) 100 = true := by
    unfold needRecenter
    rw [hb1, ha1]
    simp only [decide_eq_true_eq]
    norm_num [defaultParams]
  have hbf : bidFinal defaultParams 100 (1001/10) 100 = 400101/4000 := by
    unfold bidFinal
    rw [if_pos hrec, hb1]
    norm_num [quoteMid, defaultParams]
  have haf : askFinal defaultParams 100 (1001/10) 100 = 400299/4000 := by
    unfold askFinal
    rw [if_pos hrec, hb1]
    norm_num [quoteMid, defaultParams]
  refine ⟨by norm_num, hrec, ?_⟩
  rw [hbf, haf]
  norm_num [defaultParams]

/-- Claim C2 as amended: the recentering step sets the absolute spread
to `min_profit_ratio` times the pre-recentering (clamped) bid, so the
relative floor `(ask − bid)/bid ≥ min_profit_ratio` holds exactly when
the recentered bid is positive and no larger than the pre-recentering
bid; recentering can raise the bid above it, and then the floor fails
(and the full `calculate_optimal_quotes` emits no pair at all, claim C1). -/
theorem c2_amended_recenter_floor (p : ASParams) (bb ba pos : ℚ)
    (hrec : needRecenter p bb ba pos = true)
    (hm : 0 ≤ p.minProfitRatio) :
    askFinal p bb ba pos - bidFinal p bb ba pos
        = p.minProfitRatio * bidClamped p bb ba pos
    ∧ (0 < bidFinal p bb ba pos →
        bidFinal p bb ba pos ≤ bidClamped p bb ba pos →
        p.minProfitRatio
          ≤ (askFinal p bb ba pos - bidFinal p bb ba pos)
              / bidFinal p bb ba pos) := by
  have hdiff : askFinal p bb ba pos - bidFinal p bb ba pos
      = p.minProfitRatio * bidClamped p bb ba pos := by
    unfold askFinal bidFinal
    rw [if_pos hrec, if_pos hrec]
    ring
  refine ⟨hdiff, fun hpos hle => ?_⟩
  rw [hdiff, le_div_iff₀ hpos]
  exact mul_le_mul_of_nonneg_left hle hm

/-- Witness for the amended C2: with the volatility constants at zero,
book 100/101 and position 0, recentering fires with a lowered bid, and
the floor holds there. -/
theorem c2_amended_witness :
    needRecenter zeroVolParams 100 101 0 = true
    ∧ zeroVolParams.minProfitRatio
        ≤ (askFinal zeroVolParams 100 101 0 - bidFinal zeroVolParams 100 101 0)
            / bidFinal zeroVolParams 100 101 0 := by
  have hbraw : bidRaw zeroVolParams 100 101 0 = 201/2 := by
    norm_num [bidRaw, quoteMid, baseSpread, totalAdjustment, zeroVolParams,
      defaultParams]
  have hb1 : bidClamped zeroVolParams 100 101 0 = 201/2 := by
    unfold bidClamped
    rw [hbraw, max_def]
    norm_num [zeroVolParams, defaultParams]
  have haraw : askRaw zeroVolParams 100 101 0 = 201/2 := by
    norm_num [askRaw, quoteMid, baseSpread, totalAdjustment, zeroVolParams,
      defaultParams]
  have ha1 : askClamped zeroVolParams 100 101 0 = 201/2 := by
    unfold askClamped
    rw [haraw, min_def]
    norm_num [zeroVolParams, defaultParams]
  have hrec : needRecenter zeroVolParams 100 101 0 = true := by
    unfold needRecenter
    rw [hb1, ha1]
    simp only [decide_eq_true_eq]
    norm_num [zeroVolParams, defaultParams]
  have hbf : bidFinal zeroVolParams 100 101 0 = 803799/8000 := by
    unfold bidFinal
    rw [if_pos hrec, hb1]
    norm_num [quoteMid, zeroVolParams, defaultParams]
  refine ⟨hrec,
    (c2_amended_recenter_floor zeroVolParams 100 101 0 hrec
      (by norm_num [zeroVolParams, defaultParams])).2 ?_ ?_⟩
  · rw [hbf]
    norm_num
  · rw [hbf, hb1]
    norm_num

/-! ## Claim C3 -/

/-- Counterexample to claim C3: with current orders `C = [o]` and target
`T = [o]` for the same order `o`, the minimal-diff count `|C\T| + |T\C|`
is 0 and `o ∈ C ∩ T` should be untouched, but `update_orders` cancels
one order and places one order, touching `o` on both sides. -/
theorem c3_minimal_diff_counterexample :
    specMinimalDiffCount [sampleOrder] [sampleOrder] = 0
    ∧ (ordersCancelled (updateOrdersCalls [sampleOrder] [sampleOrder])
          [sampleOrder]).length
        + (ordersPlaced (updateOrdersCalls [sampleOrder] [sampleOrder])).length
      = 2
    ∧ sampleOrder
        ∈ ordersCancelled (updateOrdersCalls [sampleOrder] [sampleOrder])
            [sampleOrder] := by
  refine ⟨?_, ?_, ?_⟩ <;>
    simp [specMinimalDiffCount, ordersCancelled, ordersPlaced,
      updateOrdersCalls, sampleOrder]

/-- Claim C3 as amended: `update_orders` performs no matching at all.
It places every target order; whenever any current order exists it
issues a cancel-all that cancels every current order, so each order in
`C ∩ T` is both cancelled and re-placed rather than left untouched. -/
theorem c3_amended_cancel_all_replace (current target : List LiveOrder) :
    ordersPlaced (updateOrdersCalls current target) = target
    ∧ (current ≠ [] →
        ordersCancelled (updateOrdersCalls current target) current = current)
    ∧ (current = [] →
        ordersCancelled (updateOrdersCalls current target) current = [])
    ∧ (∀ o, o ∈ current → o ∈ target → current ≠ [] →
        o ∈ ordersCancelled (updateOrdersCalls current target) current
        ∧ o ∈ ordersPlaced (updateOrdersCalls current target)) := by
  have hplaced : ordersPlaced (updateOrdersCalls current target) = target := by
    unfold ordersPlaced updateOrdersCalls
    rw [List.filterMap_append]
    have h1 : ∀ l : List LiveOrder,
        (l.map (fun o => GatewayCall.createOrder o)).filterMap
          (fun c => match c with
            | GatewayCall.createOrder o => some o
            | _ => none) = l := by
      intro l
      induction l with
      | nil => rfl
      | cons x xs ih => simp [List.filterMap_cons, ih]
    rw [h1]
    cases current <;> simp
  have hcancel : current ≠ [] →
      ordersCancelled (updateOrdersCalls current target) current = current := by
    intro hne
    unfold ordersCancelled updateOrdersCalls
    cases current with
    | nil => exact absurd rfl hne
    | cons c cs => simp
  refine ⟨hplaced, hcancel, ?_, ?_⟩
  · intro he
    subst he
    unfold ordersCancelled updateOrdersCalls
    simp [List.mem_map]
  · intro o hoc hot hne
    constructor
    · rw [hcancel hne]
      exact hoc
    · rw [hplaced]
      exact hot

/-- Witness for the amended C3 at `C = T = [sampleOrder]`. -/
theorem c3_amended_witness :
    ordersPlaced (updateOrdersCalls [sampleOrder] [sampleOrder])
        = [sampleOrder]
    ∧ sampleOrder
        ∈ ordersCancelled (updateOrdersCalls [sampleOrder] [sampleOrder])
            [sampleOrder]
    ∧ sampleOrder ∈ ordersPlaced (updateOrdersCalls [sampleOrder] [sampleOrder]) :=
  ⟨(c3_amended_cancel_all_replace [sampleOrder] [sampleOrder]).1,
    ((c3_amended_cancel_all_replace [sampleOrder] [sampleOrder]).2.2.2
      sampleOrder (by simp) (by simp) (by simp)).1,
    ((c3_amended_cancel_all_replace [sampleOrder] [sampleOrder]).2.2.2
      sampleOrder (by simp) (by simp) (by simp)).2⟩

/-! ## Claims C5 and C10: the risk gate -/

/-- If some order's amount exceeds the configured size bound, the
order-size loop returns `False` or raises (on a malformed earlier order). -/
theorem sizeCheckLoop_rejects (cfg : RiskConfig) (m : ℚ)
    (hm : cfg.orderSizeKey = some m) :
    ∀ orders : List RawOrder,
      (∃ o ∈ orders, ∃ a, o.amount = some a ∧ m < a) →
      sizeCheckLoop cfg orders = .ok false
        ∨ ∃ e, sizeCheckLoop cfg orders = .error e := by
  intro orders
  induction orders with
  | nil =>
    rintro ⟨o, ho, -⟩
    simp at ho
  | cons o rest ih =>
    rintro ⟨o', ho', a, ha, hlt⟩
    cases hamt : o.amount with
    | none =>
      right
      refine ⟨.keyError, ?_⟩
      unfold sizeCheckLoop
      rw [hamt]
      rfl
    | some b =>
      by_cases hb : b > m
      · left
        unfold sizeCheckLoop
        rw [hamt, hm]
        simp [pyGet, hb]
      · have hrest : o' ∈ rest := by
          rcases List.mem_cons.mp ho' with heq | hr
          · subst heq
            have hab : a = b := by
              have := ha.symm.trans hamt
              exact Option.some_injective ℚ this.symm |>.symm
            rw [hab] at hlt
            exact absurd hlt hb
          · exact hr
        have h2 := ih ⟨o', hrest, a, ha, hlt⟩
        unfold sizeCheckLoop
        rw [hamt, hm]
        simpa [pyGet, hb] using h2

/-- An order-size loop that returns `False` or raises makes
`check_risk` return `False` (the count check before it can only return
`False` or raise as well). -/
theorem check_risk_false_of_size (cfg : RiskConfig) (orders : List RawOrder)
    (h : sizeCheckLoop cfg orders = .ok false
      ∨ ∃ e, sizeCheckLoop cfg orders = .error e) :
    check_risk cfg orders = false := by
  unfold check_risk checkRiskRaw
  cases hmo : cfg.maxOrdersKey with
  | none => rfl
  | some mo =>
    by_cases hlen : orders.length > mo
    · simp [pyGet, hlen]
    · rcases h with h | ⟨e, h⟩
      · simp [pyGet, hlen, h]
      · simp [pyGet, hlen, h]

/-- When every order's amount is present and within the bound, the
order-size loop passes. -/
theorem sizeCheckLoop_all_ok (cfg : RiskConfig) (m : ℚ)
    (hm : cfg.orderSizeKey = some m) :
    ∀ orders : List RawOrder,
      (∀ o ∈ orders, ∃ a, o.amount = some a ∧ a ≤ m) →
      sizeCheckLoop cfg orders = .ok true := by
  intro orders
  induction orders with
  | nil => intro _; rfl
  | cons o rest ih =>
    intro hall
    obtain ⟨a, ha, hle⟩ := hall o (List.mem_cons_self o rest)
    have hng : ¬ a > m := not_lt.mpr hle
    unfold sizeCheckLoop
    rw [ha, hm]
    simp only [pyGet, hng, if_false]
    exact ih (fun o' ho' => hall o' (List.mem_cons_of_mem o ho'))

/-- Claim C5: `check_risk` yields a rejected verdict whenever some
order's amount exceeds the configured size bound (`config['order_size']`),
and the size criterion itself passes whenever every order's amount is
present and at most that bound. -/
theorem c5_risk_size_gate (cfg : RiskConfig) (orders : List RawOrder) (m : ℚ)
    (hm : cfg.orderSizeKey = some m) :
    ((∃ o ∈ orders, ∃ a, o.amount = some a ∧ m < a) →
      check_risk cfg orders = false)
    ∧ ((∀ o ∈ orders, ∃ a, o.amount = some a ∧ a ≤ m) →
      sizeCheckLoop cfg orders = .ok true) :=
  ⟨fun hex => check_risk_false_of_size cfg orders
      (sizeCheckLoop_rejects cfg m hm orders hex),
    fun hall => sizeCheckLoop_all_ok cfg m hm orders hall⟩

/-- Witness for C5: an order of amount 2 against bound 1 is rejected;
an order of amount 1/2 passes the size loop. -/
theorem c5_witness :
    sampleRiskConfig.orderSizeKey = some 1
    ∧ check_risk sampleRiskConfig [bigRawOrder] = false
    ∧ sizeCheckLoop sampleRiskConfig [smallRawOrder] = .ok true :=
  ⟨rfl,
    (c5_risk_size_gate sampleRiskConfig [bigRawOrder] 1 rfl).1
      ⟨bigRawOrder, by simp, 2, rfl, by norm_num⟩,
    (c5_risk_size_gate sampleRiskConfig [smallRawOrder] 1 rfl).2
      (fun o ho => by
        simp only [List.mem_singleton] at ho
        subst ho
        exact ⟨1/2, rfl, by norm_num⟩)⟩

/-- Claim C10: `check_risk` is total — any internal error of the
`try` body (missing config keys, malformed orders, a zero best bid)
yields the rejected verdict `False` through the handler, never a raised
exception. -/
theorem c10_check_risk_total (cfg : RiskConfig) (orders : List RawOrder)
    (e : PyErr) (h : checkRiskRaw cfg orders = .error e) :
    check_risk cfg orders = false := by
  unfold check_risk
  rw [h]

/-- Witness for C10: with every config key missing, the body raises
`KeyError` at `config['max_orders']` and `check_risk` returns `False`. -/
theorem c10_witness :
    checkRiskRaw emptyRiskConfig [] = .error .keyError
    ∧ check_risk emptyRiskConfig [] = false :=
  ⟨rfl, c10_check_risk_total emptyRiskConfig [] .keyError rfl⟩

/-! ## Claim C6: staleness of the snapshot readers -/

/-- Claim C6: each of the three readers returns absent (`None`, or `[]`
for trades) when the cached timestamp is more than `max_data_age` in the
past at read time, and the cached snapshot unchanged otherwise. -/
theorem c6_staleness_readers (st : MarketDataState) (now t1 t2 t3 : ℤ) :
    (st.lastOrderbookUpdate = some t1 →
      (now - t1 > st.maxDataAge → get_orderbook st now = none)
      ∧ (¬ now - t1 > st.maxDataAge → get_orderbook st now = st.orderbook))
    ∧ (st.lastTickerUpdate = some t2 →
      (now - t2 > st.maxDataAge → get_ticker st now = none)
      ∧ (¬ now - t2 > st.maxDataAge → get_ticker st now = st.ticker))
    ∧ (st.lastTradesUpdate = some t3 →
      (now - t3 > st.maxDataAge → get_trades st now = [])
      ∧ (¬ now - t3 > st.maxDataAge → get_trades st now = st.trades)) := by
  refine ⟨fun h => ⟨fun hc => ?_, fun hc => ?_⟩,
    fun h => ⟨fun hc => ?_, fun hc => ?_⟩,
    fun h => ⟨fun hc => ?_, fun hc => ?_⟩⟩ <;>
    simp [get_orderbook, get_ticker, get_trades, h, hc]

/-- Witness for C6: snapshots stored at time 0 with `max_data_age` 10
are absent at read time 20 and served unchanged at read time 5. -/
theorem c6_witness :
    get_orderbook sampleFeedState 20 = none
    ∧ get_trades sampleFeedState 20 = []
    ∧ get_ticker sampleFeedState 5 = sampleFeedState.ticker :=
  ⟨((c6_staleness_readers sampleFeedState 20 0 0 0).1 rfl).1 (by decide),
    ((c6_staleness_readers sampleFeedState 20 0 0 0).2.2 rfl).1 (by decide),
    ((c6_staleness_readers sampleFeedState 5 0 0 0).2.1 rfl).2 (by decide)⟩

/-! ## Claim C7: feed backoff -/

/-- A failure step keeps the delay within the ceiling. -/
theorem watchStep_fail_le (d : ℕ) :
    watchStep d FeedEvent.failure ≤ maxReconnectDelay :=
  min_le_right _ _

/-- A failure step never decreases a delay that is within the ceiling. -/
theorem watchStep_fail_ge (d : ℕ) (hd : d ≤ maxReconnectDelay) :
    d ≤ watchStep d FeedEvent.failure :=
  le_min (by omega) hd

/-- Any run of consecutive failures keeps the delay within the ceiling. -/
theorem failIter_le (d : ℕ) (hd : d ≤ maxReconnectDelay) (n : ℕ) :
    failIter n d ≤ maxReconnectDelay := by
  induction n with
  | zero => exact hd
  | succ n ih =>
    unfold failIter
    rw [Function.iterate_succ_apply']
    exact watchStep_fail_le _

/-- Claim C7: over a run of consecutive failures the retry delay is
non-decreasing and never exceeds `max_reconnect_delay`, and one
successful update resets it to `reconnect_delay`. -/
theorem c7_backoff_monotone_capped (d d' n : ℕ)
    (hd : d ≤ maxReconnectDelay) :
    failIter n d ≤ failIter (n + 1) d
    ∧ failIter n d ≤ maxReconnectDelay
    ∧ watchStep d' FeedEvent.updateOk = reconnectDelayFloor
    ∧ reconnectDelayFloor ≤ maxReconnectDelay := by
  refine ⟨?_, failIter_le d hd n, rfl, by decide⟩
  have h := failIter_le d hd n
  show failIter n d ≤ failIter (n + 1) d
  unfold failIter
  rw [Function.iterate_succ_apply']
  exact watchStep_fail_ge _ h

/-- Witness for C7: starting from the floor delay 1, three failures in. -/
theorem c7_witness :
    failIter 3 1 ≤ failIter 4 1
    ∧ failIter 3 1 ≤ maxReconnectDelay
    ∧ watchStep 5 FeedEvent.updateOk = reconnectDelayFloor :=
  ⟨(c7_backoff_monotone_capped 1 5 3 (by decide)).1,
    (c7_backoff_monotone_capped 1 5 3 (by decide)).2.1,
    (c7_backoff_monotone_capped 1 5 3 (by decide)).2.2.1⟩

/-! ## Claim C8: supervisor exception dispatch -/

/-- Claim C8 (evidence of the code defect): because the name `ccxt` is
unbound in `market_maker.py`, every exception raised in the running
main-loop body makes the inner except clauses raise `NameError`, which
reaches the outer generic handler and terminates the supervisor — the
per-iteration catch never happens.  The authentication half of the claim
holds: the outer dispatch exits immediately on `AuthenticationError`. -/
theorem c8_loop_error_fate :
    (∀ e : ExcClass,
      loopBodyErrorFate e = LoopFate.exits SupervisorOutcome.exitFatal)
    ∧ outerDispatch ExcClass.authenticationError = SupervisorOutcome.exitAuth
    ∧ marketMakerModuleNames.contains ccxtNameStr = false := by
  refine ⟨fun e => ?_, rfl, by decide⟩
  cases e <;> rfl

end HTXMM
